import Mathlib

/-!
Verification of the vulners-lookup browser extension core against its
natural-language specification.  The definitions below are a shallow
embedding of the TypeScript sources:

* `src/utils.ts`              — `isVulnersHostname`, `escapeHtml`
* `src/content/utils.ts`      — `detectBulletinType`
* `src/content/constants.ts`  — `BULLETIN_TYPE_MAP`
* `src/background.ts`         — `BackgroundService.fetchWithRetry`,
                                `BackgroundService.fetchCVEData`
* `src/content/dom-scanner.ts`— `DOMScanner.loadPatterns`,
                                `DOMScanner.highlightCVEsInNode`
* `src/content/tooltip-manager.ts` — `TooltipManager.fetchBulletinData`

Machine integers are modelled as `Nat` (timestamps, HTTP status codes,
millisecond delays); JavaScript `Map`s are modelled as association lists
in insertion order; fallible asynchronous calls are modelled by an
explicit outcome argument (`Except`/`Option`).
-/

namespace VulnersLookup

/-! ## Data model (src/content/types.ts) -/

/-- `BulletinType` from `src/content/types.ts`: `'cve' | 'advisory' | 'exploit'`. -/
inductive BulletinType
  | cve
  | advisory
  | exploit
deriving DecidableEq, Repr

/-! ## JavaScript string primitives

The TypeScript sources use the host string methods `toUpperCase`,
`toLowerCase`, `startsWith`, `endsWith` and `includes`.  They are modelled
here over the character list of the string (ASCII case mapping, which is
all the identifiers and hostnames involved use). -/

/-- JavaScript `String.prototype.toUpperCase` (ASCII). -/
def jsToUpper (s : String) : String :=
  ⟨s.data.map Char.toUpper⟩

/-- JavaScript `String.prototype.toLowerCase` (ASCII). -/
def jsToLower (s : String) : String :=
  ⟨s.data.map Char.toLower⟩

/-- JavaScript `String.prototype.startsWith`. -/
def jsStartsWith (s p : String) : Bool :=
  p.data.isPrefixOf s.data

/-- JavaScript `String.prototype.endsWith`. -/
def jsEndsWith (s p : String) : Bool :=
  p.data.reverse.isPrefixOf s.data.reverse

/-- Helper for `strIncludes`: does `sub` occur as a contiguous sublist? -/
def listContainsSub (l sub : List Char) : Bool :=
  match l with
  | [] => sub.isEmpty
  | _ :: rest => sub.isPrefixOf l || listContainsSub rest sub

/-! ## Bulletin classifier (src/content/constants.ts, src/content/utils.ts) -/

/-- `BULLETIN_TYPE_MAP` from `src/content/constants.ts`, in source order. -/
def BULLETIN_TYPE_MAP : List (String × BulletinType) :=
  [("CVE-", .cve),
   ("CAN-", .cve),
   ("EDB-ID", .exploit),
   ("EDBID", .exploit),
   ("PACKETSTORM:", .exploit),
   ("ZDI-", .exploit),
   ("RHSA-", .advisory),
   ("RHBA-", .advisory),
   ("CESA-", .advisory),
   ("ELSA-", .advisory),
   ("ALAS-", .advisory),
   ("DSA-", .advisory),
   ("DLA-", .advisory),
   ("USN-", .advisory),
   ("FEDORA-", .advisory),
   ("GLSA-", .advisory),
   ("GHSA-", .advisory),
   ("ICSA-", .advisory),
   ("ICS-ALERT-", .advisory),
   ("VMSA-", .advisory),
   ("APPLE-SA-", .advisory),
   ("APSB", .advisory),
   ("TALOS-", .advisory),
   ("JVNDB-", .advisory),
   ("JVN#", .advisory),
   ("JSA", .advisory),
   ("VU#", .advisory),
   ("AA", .advisory),
   ("TA", .advisory),
   ("CNVD-", .advisory),
   ("CNNVD-", .advisory),
   ("EUVU-", .advisory),
   ("EUVD-", .advisory),
   ("KB", .advisory),
   ("MS", .advisory)]

/-- JavaScript `String.prototype.includes`: substring containment test. -/
def strIncludes (s sub : String) : Bool :=
  listContainsSub s.data sub.data

/-- `detectBulletinType` from `src/content/utils.ts`: the EDB special case
first, then a first-match-wins walk over `BULLETIN_TYPE_MAP`, defaulting
to `'cve'`. -/
def detectBulletinType (id : String) : BulletinType :=
  let upperId := jsToUpper id
  if jsStartsWith upperId "EDB" && strIncludes upperId "ID" then
    .exploit
  else
    match BULLETIN_TYPE_MAP.find? (fun p => jsStartsWith upperId (jsToUpper p.1)) with
    | some p => p.2
    | none => .cve

/-! ## Shared utilities (src/utils.ts) -/

/-- `isVulnersHostname` from `src/utils.ts`. -/
def isVulnersHostname (hostname : String) : Bool :=
  let lowerHostname := jsToLower hostname
  lowerHostname == "vulners.com" ||
    jsEndsWith lowerHostname ".vulners.com" ||
    lowerHostname == "www.vulners.com"

/-- The per-character replacement performed by `escapeHtml`'s
`str.replace(/[&<>"']/g, (char) => htmlEscapeMap[char])`. -/
def escapeHtmlChar (c : Char) : List Char :=
  if c = '&' then "&amp;".data
  else if c = '<' then "&lt;".data
  else if c = '>' then "&gt;".data
  else if c = '"' then "&quot;".data
  else if c = '\'' then "&#39;".data
  else [c]

/-- `escapeHtml` from `src/utils.ts`: global per-character replacement of
the five HTML-special characters. -/
def escapeHtml (str : String) : String :=
  ⟨str.data.flatMap escapeHtmlChar⟩

/-! ## Fetch/Retry client (`BackgroundService.fetchWithRetry`, src/background.ts)

Each network attempt is modelled by an `AttemptOutcome`: the HTTP status
of the response, or a network-level failure, or an abort of the attempt by
the 10-second timeout.  A run is driven by a script `Nat → AttemptOutcome`
giving the outcome of the i-th attempt. -/

/-- Outcome of one `fetch` attempt inside `fetchWithRetry`. -/
inductive AttemptOutcome
  | resp (status : Nat)
  | netError
  | timeout
deriving DecidableEq, Repr

/-- The `Error` values `fetchWithRetry` stores in `lastError` and throws. -/
inductive FetchError
  | serverError (status : Nat)
  | timeoutError
  | networkError
  | genericFailure
deriving DecidableEq, Repr

/-- `Response.ok`: status in the range 200–299. -/
def respOk (status : Nat) : Bool :=
  200 ≤ status && status < 300

/-- The 4xx client-error test `response.status >= 400 && response.status < 500`. -/
def isClientError (status : Nat) : Bool :=
  400 ≤ status && status < 500

/-- The `lastError` recorded for a retryable attempt outcome. -/
def errorOf : AttemptOutcome → FetchError
  | .resp status => .serverError status
  | .netError => .networkError
  | .timeout => .timeoutError

/-- An outcome that sends `fetchWithRetry` around its retry loop again:
a 5xx response, a network error, or a per-attempt timeout. -/
def retryable : AttemptOutcome → Bool
  | .resp status => !(respOk status || isClientError status) && 500 ≤ status
  | .netError => true
  | .timeout => true

/-- How a `fetchWithRetry` run ends: a returned response (by its status)
or a thrown error. -/
inductive FetchOutcome
  | ok (status : Nat)
  | thrown (e : FetchError)
deriving DecidableEq, Repr

/-- Result of a `fetchWithRetry` run: the value returned or the error
thrown, the number of `fetch` calls made, and the backoff delays slept
(in ms, in order). -/
structure FetchRun where
  result : FetchOutcome
  calls : Nat
  delaysMs : List Nat
deriving DecidableEq, Repr

/-- The `for (let i = 0; i < maxRetries; i++)` loop of `fetchWithRetry`,
with `fuel` the remaining iterations (`maxRetries - i`).  A response that
is `ok` or 4xx returns at once; a 5xx response retries after a
`Math.pow(2, i) * 1000` ms backoff unless this was the last iteration; a
response that is neither (e.g. a 3xx) is returned as-is; network errors
and timeouts retry like 5xx.  Falling out of the loop throws `lastError`,
or a generic error when no attempt ever ran. -/
def fetchLoop (script : Nat → AttemptOutcome) : Nat → Nat → FetchRun
  | _, 0 => { result := .thrown .genericFailure, calls := 0, delaysMs := [] }
  | i, fuel + 1 =>
    match script i with
    | .resp status =>
      if respOk status || isClientError status then
        { result := .ok status, calls := 1, delaysMs := [] }
      else if 500 ≤ status then
        if fuel = 0 then
          { result := .thrown (.serverError status), calls := 1, delaysMs := [] }
        else
          let rest := fetchLoop script (i + 1) fuel
          { result := rest.result, calls := rest.calls + 1,
            delaysMs := 2 ^ i * 1000 :: rest.delaysMs }
      else
        { result := .ok status, calls := 1, delaysMs := [] }
    | o =>
      if fuel = 0 then
        { result := .thrown (errorOf o), calls := 1, delaysMs := [] }
      else
        let rest := fetchLoop script (i + 1) fuel
        { result := rest.result, calls := rest.calls + 1,
          delaysMs := 2 ^ i * 1000 :: rest.delaysMs }

/-- `MAX_RETRIES` from `src/constants.ts`, the default `maxRetries`. -/
def MAX_RETRIES : Nat := 3

/-- `fetchWithRetry(url, options, maxRetries)` for a given attempt script. -/
def fetchWithRetry (script : Nat → AttemptOutcome) (maxRetries : Nat) : FetchRun :=
  fetchLoop script 0 maxRetries

/-- `fetchWithRetry` driven by a finite list of scripted attempt outcomes. -/
def fetchWithRetryList (outcomes : List AttemptOutcome) (maxRetries : Nat) : FetchRun :=
  fetchWithRetry (fun i => outcomes.getD i (.resp 200)) maxRetries

/-! ## Bulletin data cache (`BackgroundService.fetchCVEData`, src/background.ts)

JavaScript `Map`s are modelled as association lists in insertion order:
`Map.get` is the first (unique) binding of the key, `Map.set` replaces an
existing binding in place or appends a new one. -/

/-- JavaScript `Map.prototype.get`. -/
def jsMapGet {α : Type} (m : List (String × α)) (k : String) : Option α :=
  (m.find? (fun p => p.1 == k)).map Prod.snd

/-- JavaScript `Map.prototype.set`: overwrite in place, or append. -/
def jsMapSet {α : Type} (m : List (String × α)) (k : String) (v : α) :
    List (String × α) :=
  if (m.find? (fun p => p.1 == k)).isSome then
    m.map (fun p => if p.1 == k then (k, v) else p)
  else
    m ++ [(k, v)]

/-- The fields of `CVEData` (src/content/types.ts) that the claims under
verification depend on; `type` is absent (`none`) until the tooltip layer
spreads it in. -/
structure CVEData where
  id : String
  description : String
  status : String
  sources : Option (List String)
  type : Option BulletinType
deriving DecidableEq, Repr

/-- `CachedCVEData` from src/background.ts: a record plus its fetch time. -/
structure CachedCVEData where
  data : CVEData
  timestamp : Nat
deriving DecidableEq, Repr

/-- `CACHE_EXPIRY_MS` from `src/constants.ts` (1 hour). -/
def CACHE_EXPIRY_MS : Nat := 3600000

/-- The background service's `cveCache` map. -/
abbrev CVECache := List (String × CachedCVEData)

/-- The fallback returned when the API yields no record (`apiResult` null). -/
def notAvailableFallback (cveId : String) : CVEData :=
  { id := cveId, description := "Vulnerability information not available",
    status := "Unknown", sources := some [], type := none }

/-- The fallback returned from the `catch` branch of `fetchCVEData`. -/
def errorFallback (cveId : String) : CVEData :=
  { id := cveId, description := "Unable to fetch vulnerability details",
    status := "Error", sources := some [], type := none }

/-- Result of one `fetchCVEData` call: the `data` payload of the response,
the cache afterwards, and how many times `fetchFromAPI` (one Fetch/Retry
Client invocation) ran. -/
structure FetchCVEResult where
  response : CVEData
  cache : CVECache
  apiCalls : Nat
deriving DecidableEq, Repr

/-- The miss/stale path of `fetchCVEData`: one `fetchFromAPI` call whose
outcome is `apiOutcome` — a record, `null`, or a thrown error. -/
def fetchCVEFresh (cache : CVECache) (now : Nat) (cveId : String)
    (apiOutcome : Except FetchError (Option CVEData)) : FetchCVEResult :=
  match apiOutcome with
  | .ok (some apiResult) =>
    { response := apiResult,
      cache := jsMapSet cache cveId { data := apiResult, timestamp := now },
      apiCalls := 1 }
  | .ok none =>
    { response := notAvailableFallback cveId, cache := cache, apiCalls := 1 }
  | .error _ =>
    { response := errorFallback cveId, cache := cache, apiCalls := 1 }

/-- `fetchCVEData` from src/background.ts: serve from the cache while the
entry is younger than `CACHE_EXPIRY_MS`, otherwise call the API once. -/
def fetchCVEData (cache : CVECache) (now : Nat) (cveId : String)
    (apiOutcome : Except FetchError (Option CVEData)) : FetchCVEResult :=
  match jsMapGet cache cveId with
  | some cached =>
    if now - cached.timestamp < CACHE_EXPIRY_MS then
      { response := cached.data, cache := cache, apiCalls := 0 }
    else
      fetchCVEFresh cache now cveId apiOutcome
  | none => fetchCVEFresh cache now cveId apiOutcome

/-- The `cached && Date.now() - cached.timestamp < CACHE_EXPIRY_MS` test. -/
def cveCacheFresh (cache : CVECache) (now : Nat) (cveId : String) : Bool :=
  match jsMapGet cache cveId with
  | some cached => now - cached.timestamp < CACHE_EXPIRY_MS
  | none => false

/-- The response shape delivered by the `fetchCVEData` message handler:
either `{data}` (promise resolved) or `{error}` (promise rejected). -/
inductive CVEResponse
  | data (d : CVEData)
  | errMsg (msg : String)
deriving DecidableEq, Repr

/-- The `fetchCVEData` arm of `setupMessageListeners`: the resolved value
of `fetchCVEData` is passed to `sendResponse`; the `catch` branch never
fires because `fetchCVEData` resolves on every path. -/
def handleFetchCVEMessage (cache : CVECache) (now : Nat) (cveId : String)
    (apiOutcome : Except FetchError (Option CVEData)) :
    CVEResponse × CVECache × Nat :=
  let r := fetchCVEData cache now cveId apiOutcome
  (.data r.response, r.cache, r.apiCalls)

/-! ## Tooltip manager session cache (`TooltipManager.fetchBulletinData`,
src/content/tooltip-manager.ts) -/

/-- The tooltip's `cveDataCache` map. -/
abbrev BulletinCache := List (String × CVEData)

/-- The minimal fallback record built at the end of
`TooltipManager.fetchBulletinData`. -/
def tooltipFallback (bulletinId : String) (bulletinType : BulletinType) : CVEData :=
  { id := bulletinId,
    description :=
      if bulletinType = .cve then "Unable to fetch vulnerability details"
      else "Click to view details on Vulners.com",
    status := "Unknown", sources := none, type := some bulletinType }

/-- Result of one `TooltipManager.fetchBulletinData` call: the record
returned, the session cache afterwards, and how many
`chrome.runtime.sendMessage` calls were made. -/
structure TooltipFetchResult where
  data : CVEData
  cache : BulletinCache
  messagesSent : Nat
deriving DecidableEq, Repr

/-- `TooltipManager.fetchBulletinData`.  `now` is the ambient wall-clock
time (unused: the session cache has no expiry); `response` is the outcome
of the single `sendMessage` round-trip — a `{data}` response, a response
without `data`, or a thrown error. -/
def tooltipFetchBulletinData (cache : BulletinCache) (bulletinId : String)
    (bulletinType : BulletinType) (_now : Nat)
    (response : Except Unit (Option CVEData)) : TooltipFetchResult :=
  match jsMapGet cache bulletinId with
  | some cached => { data := cached, cache := cache, messagesSent := 0 }
  | none =>
    match response with
    | .ok (some d) =>
      let data := { d with type := some bulletinType }
      { data := data, cache := jsMapSet cache bulletinId data, messagesSent := 1 }
    | .ok none =>
      { data := tooltipFallback bulletinId bulletinType, cache := cache,
        messagesSent := 1 }
    | .error _ =>
      { data := tooltipFallback bulletinId bulletinType, cache := cache,
        messagesSent := 1 }

/-! ## Pattern loading (`DOMScanner.loadPatterns`, src/content/dom-scanner.ts)

A compiled JavaScript `RegExp` is modelled by its source and flags;
whether `new RegExp(source, flags)` would throw is supplied by a validity
oracle, since regex syntax checking is host behaviour. -/

/-- A compiled JavaScript regular expression (by source and flags). -/
structure JSRegExp where
  source : String
  flags : String
deriving DecidableEq, Repr

/-- The flag characters accepted by the delimiter parse `[gimuy]`. -/
def isFlagChar (c : Char) : Bool :=
  c = 'g' || c = 'i' || c = 'm' || c = 'u' || c = 'y'

/-- `patternStr.match(/^\/(.+)\/([gimuy]*)$/)`: a leading `/`, a greedy
non-empty body, a `/`, then only flag characters to the end.  Since `/` is
not a flag character, the only possible split point is just before the
maximal flag-character suffix. -/
def parseDelimited (s : String) : Option (String × String) :=
  match s.data with
  | '/' :: rest =>
    let flagLen := (rest.reverse.takeWhile isFlagChar).length
    if flagLen + 1 ≤ rest.length then
      let p := rest.length - 1 - flagLen
      if rest.getD p ' ' == '/' && decide (1 ≤ p) then
        some (⟨rest.take p⟩, ⟨rest.drop (p + 1)⟩)
      else
        none
    else
      none
  | _ => none

/-- One entry of the `response.patterns.map(...)` in `loadPatterns`:
parse the delimited notation or fall back to `gi` flags; `valid` says
whether `new RegExp` accepts the pair (otherwise the entry maps to null
with a warning). -/
def compilePatternStr (valid : String → String → Bool) (patternStr : String) :
    Option JSRegExp :=
  match parseDelimited patternStr with
  | some (src, fl) => if valid src fl then some ⟨src, fl⟩ else none
  | none => if valid patternStr "gi" then some ⟨patternStr, "gi"⟩ else none

/-- The built-in `CVE_PATTERN` field of `DOMScanner`:
`/CVE-\d\x7b4\x7d-\d\x7b4,7\x7d/gi`. -/
def CVE_PATTERN : JSRegExp :=
  { source := "CVE-\\d\x7b4\x7d-\\d\x7b4,7\x7d", flags := "gi" }

/-- What `loadPatterns` received: a rejected `sendMessage` promise, or a
response whose `patterns` field is an array or not an array (null /
missing / non-array all behave alike). -/
inductive PatternsResponse
  | thrown
  | response (patterns : Option (List String))
deriving DecidableEq, Repr

/-- The `DOMScanner` pattern state `loadPatterns` leaves behind:
`patterns`, `patternsLoaded`, and whether `buildCombinedPattern()` was
reached. -/
structure LoadPatternsResult where
  patterns : List JSRegExp
  patternsLoaded : Bool
  combinedBuilt : Bool
deriving DecidableEq, Repr

/-- `DOMScanner.loadPatterns`, starting from pattern state
`(patterns0, loaded0)`.  When the response carries an array, each entry is
compiled and the nulls are dropped (`filter(Boolean)`), then the method
returns early — before the empty-list fallback and before
`buildCombinedPattern()`.  On a thrown error or a non-array `patterns`
field, control falls through to the fallback, which installs the built-in
`CVE_PATTERN` only when the pattern list is empty. -/
def loadPatterns (valid : String → String → Bool) (resp : PatternsResponse)
    (patterns0 : List JSRegExp) (loaded0 : Bool) : LoadPatternsResult :=
  match resp with
  | .response (some list) =>
    { patterns := list.filterMap (compilePatternStr valid),
      patternsLoaded := true, combinedBuilt := false }
  | .response none =>
    if patterns0.length = 0 then
      { patterns := [CVE_PATTERN], patternsLoaded := true, combinedBuilt := true }
    else
      { patterns := patterns0, patternsLoaded := loaded0, combinedBuilt := true }
  | .thrown =>
    if patterns0.length = 0 then
      { patterns := [CVE_PATTERN], patternsLoaded := true, combinedBuilt := true }
    else
      { patterns := patterns0, patternsLoaded := loaded0, combinedBuilt := true }

/-! ## DOM scanner match processing (`DOMScanner.highlightCVEsInNode`,
src/content/dom-scanner.ts)

A text node is modelled by its text together with the list of regex
matches the combined pattern produced on it (`exec` yields matches in
ascending `index` order); a match carries its start index and matched
string.  The replacement fragment is a list of plain-text pieces and
highlight `<span>` markers. -/

/-- One `RegExpExecArray` as used by `highlightCVEsInNode`: the start
index and the matched text `match[0]`. -/
structure RegexMatch where
  index : Nat
  str : String
deriving DecidableEq, Repr

/-- A child of the replacement `DocumentFragment`: a text node or a
highlight marker element carrying `(bulletinId, bulletinType)`. -/
inductive FragmentPiece
  | text (s : String)
  | highlight (bulletinId : String) (bulletinType : BulletinType)
deriving DecidableEq, Repr

/-- The scanner state touched by `highlightCVEsInNode`: the
`highlightedBulletins` set (as a duplicate-free list in insertion order)
and the three `bulletinTypeCounts` fields. -/
structure ScanState where
  highlightedBulletins : List String
  cveCount : Nat
  advisoryCount : Nat
  exploitCount : Nat
deriving DecidableEq, Repr

/-- Read one per-type counter of `bulletinTypeCounts`. -/
def getCount (st : ScanState) : BulletinType → Nat
  | .cve => st.cveCount
  | .advisory => st.advisoryCount
  | .exploit => st.exploitCount

/-- `this.bulletinTypeCounts[bulletinType]++`. -/
def bumpCount (st : ScanState) : BulletinType → ScanState
  | .cve => { st with cveCount := st.cveCount + 1 }
  | .advisory => { st with advisoryCount := st.advisoryCount + 1 }
  | .exploit => { st with exploitCount := st.exploitCount + 1 }

/-- JavaScript `Set.prototype.add` on the model of `highlightedBulletins`. -/
def setAdd (l : List String) (s : String) : List String :=
  if l.contains s then l else l ++ [s]

/-- JavaScript `text.substring(a, b)` for `a ≤ b`: characters `[a, b)`. -/
def jsSubstring (text : String) (a b : Nat) : String :=
  ⟨(text.data.drop a).take (b - a)⟩

/-- The body of the `allMatches.forEach` in `highlightCVEsInNode`,
folding over `(processedOffset, fragment, state)`: a match starting
before `processedOffset` is skipped as an overlap; otherwise the text gap
is appended, a highlight marker is appended, the per-type counter is
bumped only for a bulletin not yet in `highlightedBulletins`, the
bulletin is added to the set, and `processedOffset` jumps to the match
end. -/
def processMatch (text : String) (acc : Nat × List FragmentPiece × ScanState)
    (m : RegexMatch) : Nat × List FragmentPiece × ScanState :=
  let processedOffset := acc.1
  let fragment := acc.2.1
  let st := acc.2.2
  if m.index < processedOffset then
    acc
  else
    let bulletinId := jsToUpper m.str
    let bulletinType := detectBulletinType bulletinId
    let fragment1 :=
      if processedOffset < m.index then
        fragment ++ [FragmentPiece.text (jsSubstring text processedOffset m.index)]
      else fragment
    let fragment2 := fragment1 ++ [FragmentPiece.highlight bulletinId bulletinType]
    let st1 :=
      if st.highlightedBulletins.contains bulletinId then st
      else bumpCount st bulletinType
    let st2 :=
      { st1 with highlightedBulletins := setAdd st1.highlightedBulletins bulletinId }
    (m.index + m.str.length, fragment2, st2)

/-- `DOMScanner.highlightCVEsInNode` on one text node, given the matches
found in its text: returns the updated scanner state and the replacement
fragment (with the trailing unmatched text appended). -/
def highlightCVEsInNode (text : String) (allMatches : List RegexMatch)
    (st : ScanState) : ScanState × List FragmentPiece :=
  let r := allMatches.foldl (processMatch text) (0, [], st)
  let fragment :=
    if r.1 < text.length then
      r.2.1 ++ [FragmentPiece.text (jsSubstring text r.1 text.length)]
    else r.2.1
  (r.2.2, fragment)

/-- Sequential processing of a list of text nodes (each given as text plus
its match list), accumulating the per-node fragments in order, as the
scan loop queues them in `pendingHighlights`. -/
def processNodes : List (String × List RegexMatch) → ScanState →
    ScanState × List FragmentPiece
  | [], st => (st, [])
  | node :: rest, st =>
    let r := highlightCVEsInNode node.1 node.2 st
    let r2 := processNodes rest r.1
    (r2.1, r.2 ++ r2.2)

/-- Number of highlight marker elements for `id` in a fragment list. -/
def countMarkers (pieces : List FragmentPiece) (id : String) : Nat :=
  pieces.countP (fun p =>
    match p with
    | .highlight i _ => i == id
    | .text _ => false)

/-- The highlight markers of a fragment, in order. -/
def highlightsOf : List FragmentPiece → List (String × BulletinType)
  | [] => []
  | .highlight i t :: rest => (i, t) :: highlightsOf rest
  | .text _ :: rest => highlightsOf rest

/-- A match list is non-overlapping from offset `off`: each match starts
at or after the running consumed offset. -/
def okFrom : Nat → List RegexMatch → Prop
  | _, [] => True
  | off, m :: ms => off ≤ m.index ∧ okFrom (m.index + m.str.length) ms

instance instDecidableOkFrom : (off : Nat) → (ms : List RegexMatch) →
    Decidable (okFrom off ms)
  | _, [] => isTrue trivial
  | off, m :: ms =>
    @instDecidableAnd _ _ (Nat.decLe off m.index)
      (instDecidableOkFrom (m.index + m.str.length) ms)

/-- Modelled from the spec: the first-match-wins overlap rule — walk the
matches in order, keep a match starting at or after the consumed offset,
discard the rest. -/
def specFirstMatchWins : Nat → List RegexMatch → List RegexMatch
  | _, [] => []
  | off, m :: ms =>
    if m.index < off then specFirstMatchWins off ms
    else m :: specFirstMatchWins (m.index + m.str.length) ms

/-- Total number of matches across a node list. -/
def totalMatches (nodes : List (String × List RegexMatch)) : Nat :=
  (nodes.map (fun p => p.2.length)).sum

/-- The state change a first-time bulletin `U` causes: its type counter
bumped and `U` appended to `highlightedBulletins`. -/
def bumpFor (st : ScanState) (U : String) : ScanState :=
  { bumpCount st (detectBulletinType U) with
    highlightedBulletins := st.highlightedBulletins ++ [U] }

/-! ## Theorems -/

/-- Claim C6: the classifier is pure and total and satisfies the specified
mappings — `EDB-ID:12345` and `EDBID:12345` classify as exploit,
`RHSA-2023:1234` as advisory, `CVE-2024-1234` as vulnerability (`cve`),
`UNKNOWN-0000-0000` as the default vulnerability type; classification is
case-insensitive (it depends only on the upper-cased identifier) and every
input is assigned one of the three types. -/
theorem claim_C6 :
    detectBulletinType "EDB-ID:12345" = .exploit ∧
    detectBulletinType "EDBID:12345" = .exploit ∧
    detectBulletinType "RHSA-2023:1234" = .advisory ∧
    detectBulletinType "CVE-2024-1234" = .cve ∧
    detectBulletinType "UNKNOWN-0000-0000" = .cve ∧
    (∀ s t : String, jsToUpper s = jsToUpper t →
      detectBulletinType s = detectBulletinType t) ∧
    (∀ s : String, detectBulletinType s = .cve ∨ detectBulletinType s = .advisory ∨
      detectBulletinType s = .exploit) := by
  refine ⟨by decide, by decide, by decide, by decide, by decide, ?_, ?_⟩
  · intro s t h
    simp only [detectBulletinType, h]
  · intro s
    cases hd : detectBulletinType s
    · exact Or.inl rfl
    · exact Or.inr (Or.inl rfl)
    · exact Or.inr (Or.inr rfl)

/-- Witness for C6 at a concrete pair of inputs differing only in case. -/
theorem claim_C6_witness :
    jsToUpper "cve-2024-1234" = jsToUpper "CVE-2024-1234" ∧
    detectBulletinType "cve-2024-1234" = detectBulletinType "CVE-2024-1234" :=
  ⟨by decide, claim_C6.2.2.2.2.2.1 "cve-2024-1234" "CVE-2024-1234" (by decide)⟩

/-- Claim C9: the self-exclusion check accepts exactly the provider's own
hostname and its subdomains, case-insensitively: `isVulnersHostname` is
true iff the lower-cased hostname is `vulners.com` or ends in
`.vulners.com`, and the specified concrete hostnames evaluate as claimed. -/
theorem claim_C9 :
    (∀ h : String, isVulnersHostname h = true ↔
      (jsToLower h = "vulners.com" ∨
        jsEndsWith (jsToLower h) ".vulners.com" = true)) ∧
    isVulnersHostname "vulners.com" = true ∧
    isVulnersHostname "www.vulners.com" = true ∧
    isVulnersHostname "api.vulners.com" = true ∧
    isVulnersHostname "API.Vulners.Com" = true ∧
    isVulnersHostname "VULNERS.COM" = true ∧
    isVulnersHostname "WWW.VULNERS.COM" = true ∧
    isVulnersHostname "notvulners.com" = false ∧
    isVulnersHostname "vulners.org" = false := by
  refine ⟨?_, by decide, by decide, by decide, by decide, by decide, by decide,
    by decide, by decide⟩
  intro h
  simp only [isVulnersHostname, Bool.or_eq_true, beq_iff_eq]
  constructor
  · rintro ((h1 | h2) | h3)
    · exact Or.inl h1
    · exact Or.inr h2
    · refine Or.inr ?_
      rw [h3]
      decide
  · rintro (h1 | h2)
    · exact Or.inl (Or.inl h1)
    · exact Or.inl (Or.inr h2)

/-- Claim C7 is false as stated: `escapeHtml` escapes `&` to the entity
`&amp;`, whose first character is a literal `&` — so the output does
reproduce a literal `&` character. -/
theorem claim_C7_counterexample :
    escapeHtml "&" = "&amp;" ∧ '&' ∈ (escapeHtml "&").data := by
  constructor
  · decide
  · decide

/-- The replacement of one character never contains `<`, `>`, `"` or `'`. -/
theorem escapeHtmlChar_safe (c : Char) :
    '<' ∉ escapeHtmlChar c ∧ '>' ∉ escapeHtmlChar c ∧
    '"' ∉ escapeHtmlChar c ∧ '\'' ∉ escapeHtmlChar c := by
  unfold escapeHtmlChar
  split_ifs with h1 h2 h3 h4 h5
  · exact ⟨by decide, by decide, by decide, by decide⟩
  · exact ⟨by decide, by decide, by decide, by decide⟩
  · exact ⟨by decide, by decide, by decide, by decide⟩
  · exact ⟨by decide, by decide, by decide, by decide⟩
  · exact ⟨by decide, by decide, by decide, by decide⟩
  · refine ⟨?_, ?_, ?_, ?_⟩ <;> intro hm
    · exact h2 (List.mem_singleton.mp hm).symm
    · exact h3 (List.mem_singleton.mp hm).symm
    · exact h4 (List.mem_singleton.mp hm).symm
    · exact h5 (List.mem_singleton.mp hm).symm

/-- A character that is not one of the five specials maps to itself. -/
theorem escapeHtmlChar_id (c : Char) (h1 : c ≠ '&') (h2 : c ≠ '<') (h3 : c ≠ '>')
    (h4 : c ≠ '"') (h5 : c ≠ '\'') : escapeHtmlChar c = [c] := by
  unfold escapeHtmlChar
  rw [if_neg h1, if_neg h2, if_neg h3, if_neg h4, if_neg h5]

/-- Mapping each character to itself leaves the character list unchanged. -/
theorem flatMap_escapeHtmlChar_id (l : List Char)
    (h : ∀ c ∈ l, escapeHtmlChar c = [c]) : l.flatMap escapeHtmlChar = l := by
  induction l with
  | nil => rfl
  | cons c cs ih =>
    rw [List.flatMap_cons, h c (List.mem_cons_self _ _),
      ih (fun x hx => h x (List.mem_cons_of_mem _ hx))]
    rfl

/-- Claim C7, amended: the output of `escapeHtml` never contains a literal
`<`, `>`, `"` or `'` (a literal `&` can appear, but only as part of an
introduced escape entity); a string containing none of the five special
characters is returned unchanged (in particular `"Hello World"`); and
escaping `"<script>x</script>"` yields a string with no literal
`"<script>"` substring. -/
theorem claim_C7_amended :
    (∀ s : String, '<' ∉ (escapeHtml s).data ∧ '>' ∉ (escapeHtml s).data ∧
      '"' ∉ (escapeHtml s).data ∧ '\'' ∉ (escapeHtml s).data) ∧
    (∀ s : String, '&' ∉ s.data → '<' ∉ s.data → '>' ∉ s.data → '"' ∉ s.data →
      '\'' ∉ s.data → escapeHtml s = s) ∧
    escapeHtml "Hello World" = "Hello World" ∧
    ¬ ("<script>".data <:+: (escapeHtml "<script>x</script>").data) := by
  have hsafe : ∀ s : String, '<' ∉ (escapeHtml s).data ∧ '>' ∉ (escapeHtml s).data ∧
      '"' ∉ (escapeHtml s).data ∧ '\'' ∉ (escapeHtml s).data := by
    intro s
    show _ ∉ (s.data.flatMap escapeHtmlChar) ∧ _ ∉ (s.data.flatMap escapeHtmlChar) ∧
      _ ∉ (s.data.flatMap escapeHtmlChar) ∧ _ ∉ (s.data.flatMap escapeHtmlChar)
    refine ⟨?_, ?_, ?_, ?_⟩ <;> intro hm
    · obtain ⟨c, _, hc⟩ := List.mem_flatMap.mp hm
      exact (escapeHtmlChar_safe c).1 hc
    · obtain ⟨c, _, hc⟩ := List.mem_flatMap.mp hm
      exact (escapeHtmlChar_safe c).2.1 hc
    · obtain ⟨c, _, hc⟩ := List.mem_flatMap.mp hm
      exact (escapeHtmlChar_safe c).2.2.1 hc
    · obtain ⟨c, _, hc⟩ := List.mem_flatMap.mp hm
      exact (escapeHtmlChar_safe c).2.2.2 hc
  refine ⟨hsafe, ?_, by decide, ?_⟩
  · intro s h1 h2 h3 h4 h5
    show String.mk (s.data.flatMap escapeHtmlChar) = s
    have heq : s.data.flatMap escapeHtmlChar = s.data := by
      refine flatMap_escapeHtmlChar_id s.data (fun c hc => ?_)
      refine escapeHtmlChar_id c ?_ ?_ ?_ ?_ ?_ <;> intro he
      · exact h1 (he ▸ hc)
      · exact h2 (he ▸ hc)
      · exact h3 (he ▸ hc)
      · exact h4 (he ▸ hc)
      · exact h5 (he ▸ hc)
    rw [heq]
  · intro hinf
    have hlt : '<' ∈ (escapeHtml "<script>x</script>").data :=
      hinf.subset (by decide)
    exact (hsafe "<script>x</script>").1 hlt

/-- Witness for the amended C7 at the concrete unchanged input. -/
theorem claim_C7_witness :
    escapeHtml "Hello World" = "Hello World" :=
  claim_C7_amended.2.1 "Hello World" (by decide) (by decide) (by decide)
    (by decide) (by decide)

/-- Claim C3 evaluated at the failing inputs: a response whose `patterns`
array is empty, or whose entries are all malformed, takes the early-return
branch of `loadPatterns` and leaves the scanner with zero patterns — the
built-in CVE fallback is not installed (and `buildCombinedPattern` is
never reached), contradicting the always-at-least-one-pattern guarantee.
The per-entry behaviour around it works as specified: a malformed entry
is dropped individually, and a null/missing list or a thrown fetch does
fall back to exactly the built-in CVE pattern. -/
theorem claim_C3_code_eval :
    loadPatterns (fun _ _ => true) (.response (some [])) [] false =
      { patterns := [], patternsLoaded := true, combinedBuilt := false } ∧
    loadPatterns (fun _ _ => false) (.response (some ["("])) [] false =
      { patterns := [], patternsLoaded := true, combinedBuilt := false } ∧
    loadPatterns (fun s _ => s != "(") (.response (some ["(", "/abc/gi", "xyz"])) [] false =
      { patterns := [{ source := "abc", flags := "gi" }, { source := "xyz", flags := "gi" }],
        patternsLoaded := true, combinedBuilt := false } ∧
    loadPatterns (fun _ _ => true) (.response none) [] false =
      { patterns := [CVE_PATTERN], patternsLoaded := true, combinedBuilt := true } ∧
    loadPatterns (fun _ _ => true) .thrown [] false =
      { patterns := [CVE_PATTERN], patternsLoaded := true, combinedBuilt := true } := by
  refine ⟨by decide, by decide, by decide, by decide, by decide⟩

/-- Every `fetchWithRetry` run makes at most `fuel` network calls. -/
theorem fetchLoop_calls_le (script : Nat → AttemptOutcome) :
    ∀ (fuel i : Nat), (fetchLoop script i fuel).calls ≤ fuel := by
  intro fuel
  induction fuel with
  | zero => intro i; simp [fetchLoop]
  | succ n ih =>
    intro i
    unfold fetchLoop
    cases hs : script i with
    | resp status =>
      by_cases hok : (respOk status || isClientError status) = true
      · simp [hok]
      · by_cases h5 : 500 ≤ status
        · by_cases hz : n = 0
          · simp [hok, h5, hz]
          · simp only [hok, h5, hz, if_false, if_true, if_neg, if_pos]
            have := ih (i + 1)
            simp only [Bool.not_eq_true] at hok
            simp [hok, h5, hz]
            omega
        · simp [hok, h5]
    | netError =>
      by_cases hz : n = 0
      · simp [hz]
      · have := ih (i + 1)
        simp [hz]
        omega
    | timeout =>
      by_cases hz : n = 0
      · simp [hz]
      · have := ih (i + 1)
        simp [hz]
        omega

/-- An attempt answered by an `ok` or a 4xx response returns immediately:
one call, no delay, no further attempts. -/
theorem fetchLoop_immediate (script : Nat → AttemptOutcome) (i fuel status : Nat)
    (hs : script i = .resp status)
    (hok : (respOk status || isClientError status) = true) (hfuel : 1 ≤ fuel) :
    fetchLoop script i fuel = { result := .ok status, calls := 1, delaysMs := [] } := by
  cases fuel with
  | zero => omega
  | succ n =>
    unfold fetchLoop
    rw [hs]
    simp [hok]

/-- A retryable attempt outcome (5xx, network error or timeout) with at
least one retry left recurses after recording a `2 ^ i * 1000` ms backoff
delay. -/
theorem fetchLoop_retryStep (script : Nat → AttemptOutcome) (i fuel : Nat)
    (hr : retryable (script i) = true) (hfuel : 1 ≤ fuel) :
    fetchLoop script i (fuel + 1) =
      { result := (fetchLoop script (i + 1) fuel).result,
        calls := (fetchLoop script (i + 1) fuel).calls + 1,
        delaysMs := 2 ^ i * 1000 :: (fetchLoop script (i + 1) fuel).delaysMs } := by
  have hfz : ¬ fuel = 0 := by omega
  generalize hrest : fetchLoop script (i + 1) fuel = rest
  unfold fetchLoop
  cases hs : script i with
  | resp status =>
    rw [hs] at hr
    simp only [retryable, Bool.and_eq_true, Bool.not_eq_true',
      decide_eq_true_eq] at hr
    simp [hr.1, hr.2, hfz, hrest]
  | netError => simp [hfz, hrest]
  | timeout => simp [hfz, hrest]

/-- When every attempt fails, the run surfaces the error of the last
attempt made (attempt `maxAttempts - 1`), not a synthetic success. -/
theorem fetchLoop_allFail (script : Nat → AttemptOutcome)
    (hall : ∀ j, retryable (script j) = true) :
    ∀ (fuel i : Nat), 1 ≤ fuel →
      (fetchLoop script i fuel).result = .thrown (errorOf (script (i + fuel - 1))) := by
  intro fuel
  induction fuel with
  | zero => intro i h; omega
  | succ n ih =>
    intro i _
    cases n with
    | zero =>
      unfold fetchLoop
      cases hs : script i with
      | resp status =>
        have hr := hall i
        rw [hs] at hr
        simp only [retryable, Bool.and_eq_true, Bool.not_eq_true',
          decide_eq_true_eq] at hr
        simp [hr.1, hr.2, errorOf, hs]
      | netError => simp [errorOf, hs]
      | timeout => simp [errorOf, hs]
    | succ m =>
      rw [fetchLoop_retryStep script i (m + 1) (hall i) (by omega)]
      dsimp only
      rw [ih (i + 1) (by omega)]
      have harg : (i + 1) + (m + 1) - 1 = i + (m + 1 + 1) - 1 := by omega
      rw [harg]

/-- Claim C1: `fetchWithRetry` makes at most `maxAttempts` network calls;
an attempt answered with a success or 4xx status returns immediately with
one call and no delays; a retryable outcome (5xx, network failure,
timeout) is followed by a `2 ^ attemptIndex * 1000` ms backoff before the
next attempt; when every attempt fails, the error of the last attempt is
thrown (no synthetic success); and the specified concrete sequences
behave as claimed: `[500, 503, 200]` gives 3 calls and a successful
result, a single `404` gives 1 call and no retry. -/
theorem claim_C1 :
    (∀ (script : Nat → AttemptOutcome) (maxAttempts : Nat),
      (fetchWithRetry script maxAttempts).calls ≤ maxAttempts) ∧
    (∀ (script : Nat → AttemptOutcome) (i fuel status : Nat),
      script i = .resp status → (respOk status || isClientError status) = true →
      1 ≤ fuel →
      fetchLoop script i fuel = { result := .ok status, calls := 1, delaysMs := [] }) ∧
    (∀ (script : Nat → AttemptOutcome) (i fuel : Nat),
      retryable (script i) = true → 1 ≤ fuel →
      (fetchLoop script i (fuel + 1)).delaysMs =
        2 ^ i * 1000 :: (fetchLoop script (i + 1) fuel).delaysMs) ∧
    (∀ (script : Nat → AttemptOutcome) (maxAttempts : Nat),
      (∀ j, retryable (script j) = true) → 1 ≤ maxAttempts →
      (fetchWithRetry script maxAttempts).result =
        .thrown (errorOf (script (maxAttempts - 1)))) ∧
    fetchWithRetryList [.resp 500, .resp 503, .resp 200] MAX_RETRIES =
      { result := .ok 200, calls := 3, delaysMs := [1000, 2000] } ∧
    fetchWithRetryList [.resp 404] MAX_RETRIES =
      { result := .ok 404, calls := 1, delaysMs := [] } := by
  refine ⟨?_, ?_, ?_, ?_, by decide, by decide⟩
  · intro script maxAttempts
    exact fetchLoop_calls_le script maxAttempts 0
  · intro script i fuel status hs hok hfuel
    exact fetchLoop_immediate script i fuel status hs hok hfuel
  · intro script i fuel hr hfuel
    rw [fetchLoop_retryStep script i fuel hr hfuel]
  · intro script maxAttempts hall hmax
    have := fetchLoop_allFail script hall maxAttempts 0 hmax
    rw [fetchWithRetry, this, Nat.zero_add]

/-- Witness for C1 at concrete scripts, discharging every hypothesis. -/
theorem claim_C1_witness :
    (fetchWithRetry (fun _ => AttemptOutcome.netError) 3).calls ≤ 3 ∧
    fetchLoop (fun _ => AttemptOutcome.resp 404) 0 3 =
      { result := .ok 404, calls := 1, delaysMs := [] } ∧
    (fetchLoop (fun _ => AttemptOutcome.netError) 0 (2 + 1)).delaysMs =
      2 ^ 0 * 1000 :: (fetchLoop (fun _ => AttemptOutcome.netError) 1 2).delaysMs ∧
    (fetchWithRetry (fun _ => AttemptOutcome.timeout) 3).result =
      .thrown .timeoutError :=
  ⟨claim_C1.1 (fun _ => AttemptOutcome.netError) 3,
   claim_C1.2.1 (fun _ => AttemptOutcome.resp 404) 0 3 404 rfl (by decide) (by decide),
   claim_C1.2.2.1 (fun _ => AttemptOutcome.netError) 0 2 (by decide) (by decide),
   claim_C1.2.2.2.1 (fun _ => AttemptOutcome.timeout) 3 (fun _ => rfl) (by decide)⟩

/-- The miss/stale path always makes exactly one API call. -/
theorem fetchCVEFresh_calls (cache : CVECache) (now : Nat) (cveId : String)
    (apiOutcome : Except FetchError (Option CVEData)) :
    (fetchCVEFresh cache now cveId apiOutcome).apiCalls = 1 := by
  cases apiOutcome with
  | ok v => cases v <;> rfl
  | error e => rfl

/-- When the cache test fails, `fetchCVEData` takes the miss/stale path. -/
theorem fetchCVEData_of_notFresh (cache : CVECache) (now : Nat) (cveId : String)
    (apiOutcome : Except FetchError (Option CVEData))
    (h : cveCacheFresh cache now cveId = false) :
    fetchCVEData cache now cveId apiOutcome =
      fetchCVEFresh cache now cveId apiOutcome := by
  unfold fetchCVEData
  unfold cveCacheFresh at h
  cases hget : jsMapGet cache cveId with
  | none => rfl
  | some cached =>
    rw [hget] at h
    simp only [decide_eq_false_iff_not] at h
    dsimp only
    rw [if_neg h]

/-- A concrete record used to instantiate the cache-TTL statements. -/
def sampleCVERecord : CVEData :=
  { id := "CVE-2024-1234", description := "d", status := "Published",
    sources := some ["vulners.com"], type := none }

/-- Claim C2: a cache entry strictly younger than one hour is served with
zero API calls and an unchanged cache; a miss or stale entry causes
exactly one Fetch/Retry Client invocation, and a successful fetch
overwrites the entry with the new record and the fresh timestamp; in
particular a hit 59 min 59 s after a fetch returns the same record with
no network call, and a request 61 min after makes exactly one call. -/
theorem claim_C2 :
    (∀ (cache : CVECache) (now : Nat) (cveId : String)
      (apiOutcome : Except FetchError (Option CVEData)) (cached : CachedCVEData),
      jsMapGet cache cveId = some cached →
      now - cached.timestamp < CACHE_EXPIRY_MS →
      fetchCVEData cache now cveId apiOutcome =
        { response := cached.data, cache := cache, apiCalls := 0 }) ∧
    (∀ (cache : CVECache) (now : Nat) (cveId : String)
      (apiOutcome : Except FetchError (Option CVEData)),
      cveCacheFresh cache now cveId = false →
      (fetchCVEData cache now cveId apiOutcome).apiCalls = 1) ∧
    (∀ (cache : CVECache) (now : Nat) (cveId : String) (r : CVEData),
      cveCacheFresh cache now cveId = false →
      fetchCVEData cache now cveId (.ok (some r)) =
        { response := r,
          cache := jsMapSet cache cveId { data := r, timestamp := now },
          apiCalls := 1 }) ∧
    (fetchCVEData
        [("CVE-2024-1234", { data := sampleCVERecord, timestamp := 0 })] 3599000
        "CVE-2024-1234" (.ok none) =
      { response := sampleCVERecord,
        cache := [("CVE-2024-1234", { data := sampleCVERecord, timestamp := 0 })],
        apiCalls := 0 }) ∧
    ((fetchCVEData
        [("CVE-2024-1234", { data := sampleCVERecord, timestamp := 0 })] 3660000
        "CVE-2024-1234" (.ok none)).apiCalls = 1) := by
  have hhit : ∀ (cache : CVECache) (now : Nat) (cveId : String)
      (apiOutcome : Except FetchError (Option CVEData)) (cached : CachedCVEData),
      jsMapGet cache cveId = some cached →
      now - cached.timestamp < CACHE_EXPIRY_MS →
      fetchCVEData cache now cveId apiOutcome =
        { response := cached.data, cache := cache, apiCalls := 0 } := by
    intro cache now cveId apiOutcome cached hget hlt
    unfold fetchCVEData
    rw [hget]
    dsimp only
    rw [if_pos hlt]
  refine ⟨hhit, ?_, ?_, ?_, ?_⟩
  · intro cache now cveId apiOutcome h
    rw [fetchCVEData_of_notFresh cache now cveId apiOutcome h]
    exact fetchCVEFresh_calls cache now cveId apiOutcome
  · intro cache now cveId r h
    rw [fetchCVEData_of_notFresh cache now cveId (.ok (some r)) h]
    rfl
  · exact hhit _ _ _ _ { data := sampleCVERecord, timestamp := 0 } (by decide)
      (by decide)
  · rw [fetchCVEData_of_notFresh _ _ _ _ (by decide)]
    exact fetchCVEFresh_calls _ _ _ _

/-- Witness for C2 at a concrete cache, record, time and API outcome. -/
theorem claim_C2_witness :
    fetchCVEData
        [("CVE-2024-1234", { data := sampleCVERecord, timestamp := 0 })] 3599000
        "CVE-2024-1234" (.ok none) =
      { response := sampleCVERecord,
        cache := [("CVE-2024-1234", { data := sampleCVERecord, timestamp := 0 })],
        apiCalls := 0 } :=
  claim_C2.1 _ 3599000 "CVE-2024-1234" (.ok none)
    { data := sampleCVERecord, timestamp := 0 } (by decide) (by decide)

/-- Claim C8: the fetch-bulletin-data handler always resolves with a
response — on a thrown error the payload is the error fallback record, on
a null API result the not-available fallback record, each carrying the
requested identifier and the `Error`/`Unknown` status; and for every
input the message handler delivers a `{data}` response (never an
exception, never no response). -/
theorem claim_C8 :
    (∀ (cache : CVECache) (now : Nat) (cveId : String) (e : FetchError),
      cveCacheFresh cache now cveId = false →
      fetchCVEData cache now cveId (.error e) =
        { response := errorFallback cveId, cache := cache, apiCalls := 1 }) ∧
    (∀ (cache : CVECache) (now : Nat) (cveId : String),
      cveCacheFresh cache now cveId = false →
      fetchCVEData cache now cveId (.ok none) =
        { response := notAvailableFallback cveId, cache := cache, apiCalls := 1 }) ∧
    (∀ cveId : String,
      (errorFallback cveId).id = cveId ∧ (errorFallback cveId).status = "Error" ∧
      (notAvailableFallback cveId).id = cveId ∧
      (notAvailableFallback cveId).status = "Unknown") ∧
    (∀ (cache : CVECache) (now : Nat) (cveId : String)
      (apiOutcome : Except FetchError (Option CVEData)),
      ∃ d, (handleFetchCVEMessage cache now cveId apiOutcome).1 = .data d) := by
  refine ⟨?_, ?_, ?_, ?_⟩
  · intro cache now cveId e h
    rw [fetchCVEData_of_notFresh cache now cveId (.error e) h]
    rfl
  · intro cache now cveId h
    rw [fetchCVEData_of_notFresh cache now cveId (.ok none) h]
    rfl
  · intro cveId
    exact ⟨rfl, rfl, rfl, rfl⟩
  · intro cache now cveId apiOutcome
    exact ⟨(fetchCVEData cache now cveId apiOutcome).response, rfl⟩

/-- Witness for C8 on the empty cache with both failing API outcomes. -/
theorem claim_C8_witness :
    fetchCVEData [] 0 "CVE-2020-0001" (.error .networkError) =
      { response := errorFallback "CVE-2020-0001", cache := [], apiCalls := 1 } ∧
    fetchCVEData [] 0 "CVE-2020-0001" (.ok none) =
      { response := notAvailableFallback "CVE-2020-0001", cache := [],
        apiCalls := 1 } :=
  ⟨claim_C8.1 [] 0 "CVE-2020-0001" .networkError (by decide),
   claim_C8.2.1 [] 0 "CVE-2020-0001" (by decide)⟩

/-- A head entry with a different key does not affect `jsMapGet`. -/
theorem jsMapGet_cons_neg {α : Type} (a : String × α) (l : List (String × α))
    (k : String) (h : ¬ (a.1 == k) = true) :
    jsMapGet (a :: l) k = jsMapGet l k := by
  unfold jsMapGet
  rw [@List.find?_cons_of_neg _ (fun p => p.1 == k) a l h]

/-- A head entry with a different key commutes with `jsMapSet`. -/
theorem jsMapSet_cons_neg {α : Type} (a : String × α) (l : List (String × α))
    (k : String) (v : α) (h : ¬ (a.1 == k) = true) :
    jsMapSet (a :: l) k v = a :: jsMapSet l k v := by
  unfold jsMapSet
  rw [@List.find?_cons_of_neg _ (fun p => p.1 == k) a l h]
  by_cases hr : (l.find? (fun p => p.1 == k)).isSome = true
  · rw [if_pos hr, if_pos hr, List.map_cons, if_neg h]
  · rw [if_neg hr, if_neg hr, List.cons_append]

/-- Looking up a key just written with `jsMapSet` yields the new value. -/
theorem jsMapGet_jsMapSet {α : Type} (m : List (String × α)) (k : String) (v : α) :
    jsMapGet (jsMapSet m k v) k = some v := by
  induction m with
  | nil =>
    unfold jsMapSet jsMapGet
    simp
  | cons a rest ih =>
    by_cases ha : (a.1 == k) = true
    · have hcond : ((a :: rest).find? (fun p => p.1 == k)).isSome = true := by
        rw [@List.find?_cons_of_pos _ (fun p => p.1 == k) a rest ha]
        rfl
      unfold jsMapSet
      rw [if_pos hcond, List.map_cons, if_pos ha]
      unfold jsMapGet
      rw [@List.find?_cons_of_pos _ (fun p => p.1 == k) (k, v) _
        (by simp : (((k, v) : String × α).1 == k) = true)]
      rfl
    · rw [jsMapSet_cons_neg a rest k v ha, jsMapGet_cons_neg a _ k ha]
      exact ih

/-- Claim C10: the tooltip's session cache has no expiry — a cached
identifier is served unchanged with zero messages to the background
service, whatever the current time and whatever the background would have
answered; and once a successful fetch has stored a record, a second call
for the same identifier at any later time returns that stored record with
zero messages. -/
theorem claim_C10 :
    (∀ (cache : BulletinCache) (bulletinId : String) (bt : BulletinType)
      (now : Nat) (response : Except Unit (Option CVEData)) (cached : CVEData),
      jsMapGet cache bulletinId = some cached →
      tooltipFetchBulletinData cache bulletinId bt now response =
        { data := cached, cache := cache, messagesSent := 0 }) ∧
    (∀ (cache : BulletinCache) (bulletinId : String) (bt bt2 : BulletinType)
      (now now2 : Nat) (d : CVEData) (response2 : Except Unit (Option CVEData)),
      jsMapGet cache bulletinId = none →
      tooltipFetchBulletinData
          (tooltipFetchBulletinData cache bulletinId bt now (.ok (some d))).cache
          bulletinId bt2 now2 response2 =
        { data := { d with type := some bt },
          cache := (tooltipFetchBulletinData cache bulletinId bt now
            (.ok (some d))).cache,
          messagesSent := 0 }) := by
  have hhit : ∀ (cache : BulletinCache) (bulletinId : String) (bt : BulletinType)
      (now : Nat) (response : Except Unit (Option CVEData)) (cached : CVEData),
      jsMapGet cache bulletinId = some cached →
      tooltipFetchBulletinData cache bulletinId bt now response =
        { data := cached, cache := cache, messagesSent := 0 } := by
    intro cache bulletinId bt now response cached hget
    unfold tooltipFetchBulletinData
    rw [hget]
  refine ⟨hhit, ?_⟩
  intro cache bulletinId bt bt2 now now2 d response2 hmiss
  have hstore : (tooltipFetchBulletinData cache bulletinId bt now (.ok (some d))).cache =
      jsMapSet cache bulletinId { d with type := some bt } := by
    unfold tooltipFetchBulletinData
    rw [hmiss]
  rw [hstore]
  exact hhit _ _ bt2 now2 response2 _ (jsMapGet_jsMapSet cache bulletinId _)

/-- Witness for C10: a stored record is served from the session cache with
no message, at a much later time. -/
theorem claim_C10_witness :
    tooltipFetchBulletinData
        (tooltipFetchBulletinData [] "CVE-2024-1234" .cve 0
          (.ok (some sampleCVERecord))).cache
        "CVE-2024-1234" .cve 99999999999 (.error ()) =
      { data := { sampleCVERecord with type := some BulletinType.cve },
        cache := (tooltipFetchBulletinData [] "CVE-2024-1234" .cve 0
          (.ok (some sampleCVERecord))).cache,
        messagesSent := 0 } :=
  claim_C10.2 [] "CVE-2024-1234" .cve .cve 0 99999999999 sampleCVERecord
    (.error ()) (by decide)

/-- A match starting before the consumed offset is skipped unchanged. -/
theorem processMatch_skip (text : String) (acc : Nat × List FragmentPiece × ScanState)
    (m : RegexMatch) (h : m.index < acc.1) : processMatch text acc m = acc := by
  unfold processMatch
  rw [if_pos h]

/-- The one-step behaviour of a retained match. -/
theorem processMatch_keep (text : String) (off : Nat) (frag : List FragmentPiece)
    (st : ScanState) (m : RegexMatch) (h : ¬ m.index < off) :
    processMatch text (off, frag, st) m =
      (m.index + m.str.length,
       (if off < m.index then
          frag ++ [FragmentPiece.text (jsSubstring text off m.index)]
        else frag) ++
         [FragmentPiece.highlight (jsToUpper m.str)
           (detectBulletinType (jsToUpper m.str))],
       { (if st.highlightedBulletins.contains (jsToUpper m.str) then st
          else bumpCount st (detectBulletinType (jsToUpper m.str))) with
         highlightedBulletins :=
           setAdd
             (if st.highlightedBulletins.contains (jsToUpper m.str) then st
              else bumpCount st
                (detectBulletinType (jsToUpper m.str))).highlightedBulletins
             (jsToUpper m.str) }) := by
  unfold processMatch
  rw [if_neg h]

/-- `highlightsOf` distributes over append. -/
theorem highlightsOf_append (l1 l2 : List FragmentPiece) :
    highlightsOf (l1 ++ l2) = highlightsOf l1 ++ highlightsOf l2 := by
  induction l1 with
  | nil => rfl
  | cons p rest ih => cases p <;> simp [highlightsOf, ih]

/-- The highlight markers produced by the match loop are exactly the
first-match-wins selection, in order. -/
theorem foldl_processMatch_highlights (text : String) :
    ∀ (ms : List RegexMatch) (off : Nat) (frag : List FragmentPiece) (st : ScanState),
    highlightsOf (ms.foldl (processMatch text) (off, frag, st)).2.1 =
      highlightsOf frag ++ (specFirstMatchWins off ms).map
        (fun m => (jsToUpper m.str, detectBulletinType (jsToUpper m.str))) := by
  intro ms
  induction ms with
  | nil =>
    intro off frag st
    simp [specFirstMatchWins]
  | cons m rest ih =>
    intro off frag st
    rw [List.foldl_cons]
    by_cases h : m.index < off
    · rw [processMatch_skip text (off, frag, st) m h, ih off frag st]
      simp only [specFirstMatchWins]
      rw [if_pos h]
    · rw [processMatch_keep text off frag st m h, ih]
      simp only [specFirstMatchWins]
      rw [if_neg h]
      by_cases h2 : off < m.index <;>
        simp [highlightsOf_append, highlightsOf, h2]

/-- The first-match-wins selection is non-overlapping: every retained
match starts at or after the end of the previously retained match. -/
theorem specFirstMatchWins_okFrom :
    ∀ (ms : List RegexMatch) (off : Nat), okFrom off (specFirstMatchWins off ms) := by
  intro ms
  induction ms with
  | nil => intro off; trivial
  | cons m rest ih =>
    intro off
    simp only [specFirstMatchWins]
    by_cases h : m.index < off
    · rw [if_pos h]
      exact ih off
    · rw [if_neg h]
      exact ⟨by omega, ih (m.index + m.str.length)⟩

/-- Claim C5: within one text node the matches are consumed left to
right, a match starting before the consumed end offset of the previously
retained match is discarded, and the markers created are exactly the
first-match-wins selection — whose spans never overlap; in particular two
overlapping candidates at offsets `[0,10)` and `[5,15)` produce exactly
one marker, the one covering the earlier match. -/
theorem claim_C5 :
    (∀ (text : String) (ms : List RegexMatch) (st : ScanState),
      highlightsOf (highlightCVEsInNode text ms st).2 =
        (specFirstMatchWins 0 ms).map
          (fun m => (jsToUpper m.str, detectBulletinType (jsToUpper m.str)))) ∧
    (∀ (ms : List RegexMatch) (off : Nat),
      okFrom off (specFirstMatchWins off ms)) ∧
    highlightsOf
        (highlightCVEsInNode "012345678901234"
          [{ index := 0, str := "0123456789" },
           { index := 5, str := "5678901234" }]
          { highlightedBulletins := [], cveCount := 0, advisoryCount := 0,
            exploitCount := 0 }).2 =
      [("0123456789", BulletinType.cve)] := by
  have hmain : ∀ (text : String) (ms : List RegexMatch) (st : ScanState),
      highlightsOf (highlightCVEsInNode text ms st).2 =
        (specFirstMatchWins 0 ms).map
          (fun m => (jsToUpper m.str, detectBulletinType (jsToUpper m.str))) := by
    intro text ms st
    simp only [highlightCVEsInNode]
    by_cases hend :
        (ms.foldl (processMatch text) (0, [], st)).1 < text.length
    · rw [if_pos hend, highlightsOf_append, foldl_processMatch_highlights]
      simp [highlightsOf]
    · rw [if_neg hend, foldl_processMatch_highlights]
      simp [highlightsOf]
  exact ⟨hmain, specFirstMatchWins_okFrom, by decide⟩

/-- `bumpCount` never touches the `highlightedBulletins` set. -/
theorem bumpCount_highlightedBulletins (st : ScanState) (t : BulletinType) :
    (bumpCount st t).highlightedBulletins = st.highlightedBulletins := by
  cases t <;> rfl

/-- `bumpCount` increments exactly the requested counter. -/
theorem getCount_bumpCount (st : ScanState) (t : BulletinType) :
    getCount (bumpCount st t) t = getCount st t + 1 := by
  cases t <;> rfl

/-- Replacing the set leaves every counter unchanged. -/
theorem getCount_setUpdate (st : ScanState) (l : List String) (t : BulletinType) :
    getCount { st with highlightedBulletins := l } t = getCount st t := by
  cases t <;> rfl

/-- An appended element is found by `List.contains`. -/
theorem contains_append_singleton (l : List String) (U : String) :
    (l ++ [U]).contains U = true := by
  simp

/-- The set of `bumpFor` contains the bulletin just counted. -/
theorem bumpFor_contains (st : ScanState) (U : String) :
    (bumpFor st U).highlightedBulletins.contains U = true :=
  contains_append_singleton st.highlightedBulletins U

/-- State after the match loop: untouched on no matches, untouched when
the bulletin is already known, and `bumpFor` exactly once otherwise —
assuming every match in the node upper-cases to `U` and the matches do
not overlap. -/
theorem foldl_processMatch_state (text U : String) :
    ∀ (ms : List RegexMatch) (off : Nat) (frag : List FragmentPiece) (st : ScanState),
    okFrom off ms → (∀ m ∈ ms, jsToUpper m.str = U) →
    (ms.foldl (processMatch text) (off, frag, st)).2.2 =
      (if ms.isEmpty then st
       else if st.highlightedBulletins.contains U then st else bumpFor st U) := by
  intro ms
  induction ms with
  | nil =>
    intro off frag st _ _
    simp
  | cons m rest ih =>
    intro off frag st hok hU
    obtain ⟨hoff, hokr⟩ := hok
    have hm : jsToUpper m.str = U := hU m (List.mem_cons_self _ _)
    have hUr : ∀ x ∈ rest, jsToUpper x.str = U :=
      fun x hx => hU x (List.mem_cons_of_mem _ hx)
    have h : ¬ m.index < off := by omega
    rw [List.foldl_cons, processMatch_keep text off frag st m h, hm]
    by_cases hc : st.highlightedBulletins.contains U = true
    · rw [if_pos hc]
      have hset : setAdd st.highlightedBulletins U = st.highlightedBulletins := by
        unfold setAdd
        rw [if_pos hc]
      rw [hset]
      have hst : ({ st with highlightedBulletins := st.highlightedBulletins }) = st := rfl
      rw [hst, ih _ _ st hokr hUr]
      have hmem : U ∈ st.highlightedBulletins := by simpa using hc
      simp [hmem]
    · rw [if_neg hc, bumpCount_highlightedBulletins]
      have hset : setAdd st.highlightedBulletins U = st.highlightedBulletins ++ [U] := by
        unfold setAdd
        rw [if_neg hc]
      rw [hset]
      have hbf : ({ bumpCount st (detectBulletinType U) with
          highlightedBulletins := st.highlightedBulletins ++ [U] }) = bumpFor st U := rfl
      rw [hbf, ih _ _ (bumpFor st U) hokr hUr]
      have hbmem : U ∈ (bumpFor st U).highlightedBulletins := by
        simpa using bumpFor_contains st U
      have hnmem : U ∉ st.highlightedBulletins := by simpa using hc
      simp [hbmem, hnmem]

/-- `countMarkers` distributes over append. -/
theorem countMarkers_append (l1 l2 : List FragmentPiece) (id : String) :
    countMarkers (l1 ++ l2) id = countMarkers l1 id + countMarkers l2 id :=
  List.countP_append _ _ _

/-- Marker count after the match loop: one marker per (non-overlapping)
match of the bulletin. -/
theorem foldl_processMatch_markers (text U : String) :
    ∀ (ms : List RegexMatch) (off : Nat) (frag : List FragmentPiece) (st : ScanState),
    okFrom off ms → (∀ m ∈ ms, jsToUpper m.str = U) →
    countMarkers (ms.foldl (processMatch text) (off, frag, st)).2.1 U =
      countMarkers frag U + ms.length := by
  intro ms
  induction ms with
  | nil =>
    intro off frag st _ _
    simp
  | cons m rest ih =>
    intro off frag st hok hU
    obtain ⟨hoff, hokr⟩ := hok
    have hm : jsToUpper m.str = U := hU m (List.mem_cons_self _ _)
    have hUr : ∀ x ∈ rest, jsToUpper x.str = U :=
      fun x hx => hU x (List.mem_cons_of_mem _ hx)
    have h : ¬ m.index < off := by omega
    rw [List.foldl_cons, processMatch_keep text off frag st m h, hm]
    rw [ih _ _ _ hokr hUr]
    by_cases h2 : off < m.index <;>
      simp [h2, countMarkers_append, countMarkers, List.length_cons] <;> omega

/-- One text node: the state change is as in `foldl_processMatch_state`
and exactly one marker is created per match of the bulletin. -/
theorem highlightCVEsInNode_spec (text U : String) (ms : List RegexMatch)
    (st : ScanState) (hok : okFrom 0 ms) (hU : ∀ m ∈ ms, jsToUpper m.str = U) :
    (highlightCVEsInNode text ms st).1 =
      (if ms.isEmpty then st
       else if st.highlightedBulletins.contains U then st else bumpFor st U) ∧
    countMarkers (highlightCVEsInNode text ms st).2 U = ms.length := by
  simp only [highlightCVEsInNode]
  constructor
  · exact foldl_processMatch_state text U ms 0 [] st hok hU
  · by_cases hend : (ms.foldl (processMatch text) (0, [], st)).1 < text.length
    · rw [if_pos hend, countMarkers_append,
        foldl_processMatch_markers text U ms 0 [] st hok hU]
      simp [countMarkers]
    · rw [if_neg hend, foldl_processMatch_markers text U ms 0 [] st hok hU]
      simp [countMarkers]

/-- Page-level processing: across all nodes, the bulletin's state change
happens at most once while every match gets its own marker. -/
theorem processNodes_spec (U : String) :
    ∀ (nodes : List (String × List RegexMatch)) (st : ScanState),
    (∀ p ∈ nodes, okFrom 0 p.2) →
    (∀ p ∈ nodes, ∀ m ∈ p.2, jsToUpper m.str = U) →
    (processNodes nodes st).1 =
      (if totalMatches nodes = 0 then st
       else if st.highlightedBulletins.contains U then st else bumpFor st U) ∧
    countMarkers (processNodes nodes st).2 U = totalMatches nodes := by
  intro nodes
  induction nodes with
  | nil =>
    intro st _ _
    simp [processNodes, totalMatches, countMarkers]
  | cons node rest ih =>
    intro st hok hU
    have hoknode : okFrom 0 node.2 := hok node (List.mem_cons_self _ _)
    have hUnode : ∀ m ∈ node.2, jsToUpper m.str = U :=
      hU node (List.mem_cons_self _ _)
    have hokr : ∀ p ∈ rest, okFrom 0 p.2 :=
      fun p hp => hok p (List.mem_cons_of_mem _ hp)
    have hUr : ∀ p ∈ rest, ∀ m ∈ p.2, jsToUpper m.str = U :=
      fun p hp => hU p (List.mem_cons_of_mem _ hp)
    obtain ⟨hnode1, hnode2⟩ :=
      highlightCVEsInNode_spec node.1 U node.2 st hoknode hUnode
    have htot : totalMatches (node :: rest) = node.2.length + totalMatches rest := by
      simp [totalMatches]
    simp only [processNodes]
    rw [countMarkers_append, hnode2]
    by_cases hempty : node.2.isEmpty
    · have hlen : node.2.length = 0 := by
        simpa [List.isEmpty_iff_length_eq_zero] using hempty
      rw [if_pos hempty] at hnode1
      rw [hnode1]
      obtain ⟨hr1, hr2⟩ := ih st hokr hUr
      rw [hr1, hr2, htot, hlen]
      simp
    · have hlen : ¬ node.2.length = 0 := by
        simpa [List.isEmpty_iff_length_eq_zero] using hempty
      rw [if_neg hempty] at hnode1
      have hne : ¬ (node.2.length + totalMatches rest = 0) := by omega
      by_cases hc : st.highlightedBulletins.contains U = true
      · rw [if_pos hc] at hnode1
        rw [hnode1]
        obtain ⟨hr1, hr2⟩ := ih st hokr hUr
        rw [hr1, hr2, htot]
        rw [if_neg hne, if_pos hc]
        by_cases hz : totalMatches rest = 0
        · rw [if_pos hz]
          exact ⟨rfl, by omega⟩
        · rw [if_neg hz]
          exact ⟨rfl, by omega⟩
      · rw [if_neg hc] at hnode1
        rw [hnode1]
        obtain ⟨hr1, hr2⟩ := ih (bumpFor st U) hokr hUr
        rw [hr1, hr2, htot]
        rw [if_neg hne, if_neg hc]
        by_cases hz : totalMatches rest = 0
        · rw [if_pos hz]
          exact ⟨rfl, by omega⟩
        · rw [if_neg hz, if_pos (bumpFor_contains st U)]
          exact ⟨rfl, by omega⟩

/-- Claim C4: when the same identifier (compared after upper-casing)
occurs `N ≥ 2` times across the text nodes of a page and is not yet
highlighted, processing all occurrences increments the per-type counter
of its type by exactly 1 while creating exactly `N` marker elements —
repeated occurrences never increment any counter a second time. -/
theorem claim_C4 (nodes : List (String × List RegexMatch)) (st : ScanState)
    (U : String) (N : Nat)
    (hok : ∀ p ∈ nodes, okFrom 0 p.2)
    (hU : ∀ p ∈ nodes, ∀ m ∈ p.2, jsToUpper m.str = U)
    (hfresh : st.highlightedBulletins.contains U = false)
    (hN : totalMatches nodes = N) (hN2 : 2 ≤ N) :
    getCount (processNodes nodes st).1 (detectBulletinType U) =
      getCount st (detectBulletinType U) + 1 ∧
    countMarkers (processNodes nodes st).2 U = N := by
  obtain ⟨h1, h2⟩ := processNodes_spec U nodes st hok hU
  have hz : ¬ totalMatches nodes = 0 := by omega
  rw [if_neg hz] at h1
  rw [hfresh] at h1
  simp only [Bool.false_eq_true, if_false] at h1
  constructor
  · rw [h1]
    unfold bumpFor
    rw [getCount_setUpdate, getCount_bumpCount]
  · rw [h2, hN]

/-- Witness for C4: two occurrences (one lower-case) of the same CVE
identifier in one node, starting from a fresh scanner state. -/
theorem claim_C4_witness :
    getCount
        (processNodes
          [("CVE-2024-1234 and cve-2024-1234",
            [{ index := 0, str := "CVE-2024-1234" },
             { index := 18, str := "cve-2024-1234" }])]
          { highlightedBulletins := [], cveCount := 0, advisoryCount := 0,
            exploitCount := 0 }).1
        (detectBulletinType "CVE-2024-1234") =
      getCount
        { highlightedBulletins := [], cveCount := 0, advisoryCount := 0,
          exploitCount := 0 } (detectBulletinType "CVE-2024-1234") + 1 ∧
    countMarkers
        (processNodes
          [("CVE-2024-1234 and cve-2024-1234",
            [{ index := 0, str := "CVE-2024-1234" },
             { index := 18, str := "cve-2024-1234" }])]
          { highlightedBulletins := [], cveCount := 0, advisoryCount := 0,
            exploitCount := 0 }).2 "CVE-2024-1234" = 2 :=
  claim_C4
    [("CVE-2024-1234 and cve-2024-1234",
      [{ index := 0, str := "CVE-2024-1234" },
       { index := 18, str := "cve-2024-1234" }])]
    { highlightedBulletins := [], cveCount := 0, advisoryCount := 0,
      exploitCount := 0 }
    "CVE-2024-1234" 2 (by decide) (by decide) (by decide) (by decide) (by decide)

end VulnersLookup
